import Mathlib

/-!
Shallow embedding of the ledger wallet and transaction engine of
`src/solana_blockchain_integration.py` (class `SolanaBlockchainIntegration`),
together with theorems settling the frozen claims about it.

Conventions of the embedding:
* a public key is modelled by its 32-byte representation (`Pubkey.__bytes__()`),
  a blockhash and a signature by strings;
* SOL amounts (Python floats obtained by dividing lamports by `1e9`) are
  modelled as rationals, lamport amounts as naturals;
* the RPC client is an explicit environment record: each client call the code
  makes reads the corresponding response from the environment, and the list of
  calls performed is returned as a trace;
* the on-disk stores (the wallet JSON file, the `blockchain_data/payments`
  directory, the `blockchain_data/nfts` directory) are association lists keyed
  by wallet name / file name / product id, with file writes overwriting the
  entry of an existing key, exactly as `open(path, "w")` does.
-/

namespace SolanaIntegration

/-- A public key, by its 32 raw bytes. -/
abbrev Pubkey := List Nat

/-- struct.pack of "<B": one byte. -/
def u8 (n : Nat) : List Nat := [n % 256]

/-- Little-endian unsigned 32-bit encoding (bincode u32, used by the
system-program instruction discriminant in solders). -/
def u32le (n : Nat) : List Nat :=
  [n % 256, n / 256 % 256, n / 256 ^ 2 % 256, n / 256 ^ 3 % 256]

/-- struct.pack of "<Q": little-endian unsigned 64-bit encoding. -/
def u64le (n : Nat) : List Nat :=
  [n % 256, n / 256 % 256, n / 256 ^ 2 % 256, n / 256 ^ 3 % 256,
   n / 256 ^ 4 % 256, n / 256 ^ 5 % 256, n / 256 ^ 6 % 256, n / 256 ^ 7 % 256]

/-- The SPL token program id, the byte decoding of
"TokenkegQfeZyiNwAJbNbGKPFXCWuBvf9Ss623VQ5DA" (`TOKEN_PROGRAM_ID` in
`mint_product_nft`). -/
def TOKEN_PROGRAM_ID : Pubkey :=
  [6, 221, 246, 225, 215, 101, 161, 147, 217, 203, 225, 70, 206, 235, 121,
   172, 28, 180, 133, 237, 95, 91, 55, 145, 58, 140, 245, 133, 126, 255, 0, 169]

/-- The rent sysvar id, the byte decoding of
"SysvarRent111111111111111111111111111111111". -/
def SYSVAR_RENT_ID : Pubkey :=
  [6, 167, 213, 23, 25, 44, 92, 81, 33, 140, 201, 76, 61, 74, 241, 127, 88,
   218, 238, 8, 155, 161, 253, 68, 227, 219, 217, 138, 0, 0, 0, 0]

/-- The system program id ("11111111111111111111111111111111"): 32 zero bytes. -/
def SYSTEM_PROGRAM_ID : Pubkey := List.replicate 32 0

/-- solders `AccountMeta`. -/
structure AccountMeta where
  pubkey : Pubkey
  is_signer : Bool
  is_writable : Bool
deriving DecidableEq

/-- solders `Instruction`: program id, account list, opcode-prefixed payload. -/
structure Instruction where
  program_id : Pubkey
  accounts : List AccountMeta
  data : List Nat
deriving DecidableEq

/-- The system-program CreateAccount instruction as assembled by solders
`create_account(CreateAccountParams(from_pubkey, to_pubkey, lamports, space,
owner))`: bincode payload is the u32 discriminant 0, then lamports and space as
u64 little-endian, then the 32 owner-program bytes; the funding account and the
new account are both writable signers. -/
def create_account (from_pubkey to_pubkey : Pubkey) (lamports space : Nat)
    (owner : Pubkey) : Instruction :=
  { program_id := SYSTEM_PROGRAM_ID
    accounts := [⟨from_pubkey, true, true⟩, ⟨to_pubkey, true, true⟩]
    data := u32le 0 ++ u64le lamports ++ u64le space ++ owner }

/-- `init_mint_data` from `mint_product_nft`: pack("<B", 0) for InitializeMint,
pack("<B", 0) for zero decimals, the mint-authority bytes, pack("<B", 0) for no
freeze authority. -/
def init_mint_data (mint_authority : Pubkey) : List Nat :=
  u8 0 ++ u8 0 ++ mint_authority ++ u8 0

/-- `init_token_account_data` from `mint_product_nft`: pack("<B", 1) for
InitializeAccount, then the owner bytes. -/
def init_token_account_data (owner : Pubkey) : List Nat :=
  u8 1 ++ owner

/-- `mint_to_data` from `mint_product_nft`: pack("<B", 7) for MintTo, then the
amount 1 as pack("<Q", 1). -/
def mint_to_data : List Nat :=
  u8 7 ++ u64le 1

/-- `init_mint_ix` from `mint_product_nft`. -/
def init_mint_ix (mint_pubkey owner_pubkey : Pubkey) : Instruction :=
  { program_id := TOKEN_PROGRAM_ID
    accounts := [⟨mint_pubkey, true, true⟩, ⟨SYSVAR_RENT_ID, false, false⟩,
                 ⟨owner_pubkey, true, false⟩]
    data := init_mint_data owner_pubkey }

/-- `init_token_account_ix` from `mint_product_nft`. -/
def init_token_account_ix (token_account_pubkey mint_pubkey owner_pubkey : Pubkey) :
    Instruction :=
  { program_id := TOKEN_PROGRAM_ID
    accounts := [⟨token_account_pubkey, true, true⟩, ⟨mint_pubkey, false, false⟩,
                 ⟨owner_pubkey, false, false⟩, ⟨SYSVAR_RENT_ID, false, false⟩]
    data := init_token_account_data owner_pubkey }

/-- `mint_to_ix` from `mint_product_nft`. -/
def mint_to_ix (mint_pubkey token_account_pubkey owner_pubkey : Pubkey) : Instruction :=
  { program_id := TOKEN_PROGRAM_ID
    accounts := [⟨mint_pubkey, true, true⟩, ⟨token_account_pubkey, false, true⟩,
                 ⟨owner_pubkey, true, false⟩]
    data := mint_to_data }

/-- A signed transaction: its instruction list, fee payer, the one recent
blockhash of its message, and the public keys of the keypairs it was signed
with. -/
structure SignedTransaction where
  instructions : List Instruction
  fee_payer : Pubkey
  recent_blockhash : String
  signers : List Pubkey
deriving DecidableEq

/-- The mint-issuance transaction assembled and signed by `mint_product_nft`:
the five instructions in source order over one `Message.new_with_blockhash`
with the owner as fee payer, signed with the owner, mint and token-account
keypairs. -/
def build_mint_transaction (owner_pubkey mint_pubkey token_account_pubkey : Pubkey)
    (mint_rent token_account_rent : Nat) (recent_blockhash : String) :
    SignedTransaction :=
  { instructions :=
      [ create_account owner_pubkey mint_pubkey mint_rent 82 TOKEN_PROGRAM_ID
      , init_mint_ix mint_pubkey owner_pubkey
      , create_account owner_pubkey token_account_pubkey token_account_rent 165
          TOKEN_PROGRAM_ID
      , init_token_account_ix token_account_pubkey mint_pubkey owner_pubkey
      , mint_to_ix mint_pubkey token_account_pubkey owner_pubkey ]
    fee_payer := owner_pubkey
    recent_blockhash := recent_blockhash
    signers := [owner_pubkey, mint_pubkey, token_account_pubkey] }

/-- One entry of `get_signature_statuses(...).value`: the transaction error, if
any, and the confirmation (commitment) status, if any. -/
structure SigStatus where
  err : Option String
  confirmation_status : Option String
deriving DecidableEq

/-- Python truthiness of an optional string: None and the empty string are
falsy, everything else truthy. -/
def truthyStr : Option String → Bool
  | none => false
  | some s => !s.isEmpty

/-- The status strings the code assigns to a transaction: "pending",
"confirmed", "failed". -/
inductive TxStatus
  | pending
  | confirmed
  | failed
deriving DecidableEq

/-- The bounded confirmation loop shared verbatim by `transfer_sol`
(lines 292-307) and `mint_product_nft` (lines 856-870). `polls i` is the
outcome of the i-th `get_signature_statuses` call: `.error e` when the client
call raises (the exception escapes the loop into the surrounding `try`),
`.ok none` when `confirmation_result.value` has no entry yet, `.ok (some st)`
when it has one. `fuel` is the remaining loop iterations
(`max_wait - wait_time`). Returns the status — or the escaping exception —
together with the number of `get_signature_statuses` calls performed (a
raising call counts: it was made). -/
def poll_loop_aux (polls : Nat → Except String (Option SigStatus)) :
    Nat → Nat → Except String TxStatus × Nat
  | i, 0 => (.ok TxStatus.pending, i)
  | i, fuel + 1 =>
    match polls i with
    | .error e => (.error e, i + 1)
    | .ok (some st) =>
      if st.err = none then
        if truthyStr st.confirmation_status then (.ok TxStatus.confirmed, i + 1)
        else poll_loop_aux polls (i + 1) fuel
      else (.ok TxStatus.failed, i + 1)
    | .ok none => poll_loop_aux polls (i + 1) fuel

/-- The polling ceiling: `max_wait = 30` one-second intervals. -/
def MAX_WAIT : Nat := 30

/-- The confirmation loop entered with `wait_time = 0` and `status = "pending"`. -/
def poll_loop (polls : Nat → Except String (Option SigStatus)) :
    Except String TxStatus × Nat :=
  poll_loop_aux polls 0 MAX_WAIT

/-- The single extra status check with `search_transaction_history=True` that
`transfer_sol` performs when the loop ends still pending (lines 309-321). The
call itself can raise (`.error`, escaping into the surrounding `try`);
otherwise `err is None and confirmation_status` upgrades to confirmed, an
`elif`-truthy `err` downgrades to failed, and anything else leaves the status
as it was. -/
def final_history_check (st? : Except String (Option SigStatus))
    (status : TxStatus) : Except String TxStatus :=
  match st? with
  | .error e => .error e
  | .ok none => .ok status
  | .ok (some st) =>
    .ok (if st.err.isNone && truthyStr st.confirmation_status then
          TxStatus.confirmed
         else if truthyStr st.err then TxStatus.failed
         else status)

/-- An RPC call made through the client, recorded in call traces. -/
inductive NetCall
  | getBalance
  | getLatestBlockhash
  | getMinimumBalanceForRentExemption (space : Nat)
  | sendTransaction
  | getSignatureStatuses (search_transaction_history : Bool)
  | requestAirdrop
deriving DecidableEq

/-- Errors surfaced by the integration layer; each constructor stands for one
`raise` site or for a client exception escaping to the caller. -/
inductive PyErr
  | walletNotFound (name : String)
  | insufficientBalance (available requested : ℚ)
  | walletExists (name : String)
  | clientError (msg : String)
  | mintNotConfirmed
deriving DecidableEq

/-- One entry of the wallet JSON file `solana_wallets.json`. The public key is
modelled by its bytes; `private_key` and `secret_key` keep their textual
(base58 / hex) renderings. -/
structure WalletInfo where
  name : String
  public_key : Pubkey
  private_key : String
  secret_key : String
deriving DecidableEq

/-- The in-memory wallet collection `self.wallets`: a JSON object keyed by
wallet name, in insertion order. -/
abbrev Wallets := List (String × WalletInfo)

/-- Membership test `wallet_name in self.wallets`. -/
def walletContains (w : Wallets) (name : String) : Bool :=
  w.any (fun p => p.1 = name)

/-- Dictionary access `self.wallets[wallet_name]`. -/
def walletLookup (w : Wallets) (name : String) : Option WalletInfo :=
  (w.find? (fun p => p.1 = name)).map Prod.snd

/-- `create_wallet` (lines 380-411): an existing name raises "already exists";
otherwise the freshly generated keypair (`new_key`, external randomness passed
as an input) is recorded under the requested name and the whole collection is
rewritten to the wallet file. The returned collection is exactly what is
persisted. -/
def create_wallet (wallets : Wallets) (wallet_name : String)
    (new_key : WalletInfo) : Except PyErr (WalletInfo × Wallets) :=
  if walletContains wallets wallet_name then
    .error (.walletExists wallet_name)
  else
    let wallet_info : WalletInfo := { new_key with name := wallet_name }
    .ok (wallet_info, wallets ++ [(wallet_name, wallet_info)])

/-- The `try` body of `get_wallet_balance` (lines 66-73): the lamports
returned by the balance RPC are divided by 1e9; any exception from the client
is caught, logged, and replaced by the balance 0.0. -/
def balance_of_resp (balance_resp : Except String Nat) : ℚ :=
  match balance_resp with
  | .ok lamports => (lamports : ℚ) / 1000000000
  | .error _ => 0

/-- `get_wallet_balance` (lines 60-73): an unknown wallet raises ValueError,
otherwise the balance response is converted by `balance_of_resp`. -/
def get_wallet_balance (wallets : Wallets) (wallet_name : String)
    (balance_resp : Except String Nat) : Except PyErr ℚ :=
  match walletLookup wallets wallet_name with
  | none => .error (.walletNotFound wallet_name)
  | some _ => .ok (balance_of_resp balance_resp)

/-- Python `int()` truncation toward zero of a rational. -/
def int_trunc (q : ℚ) : Int := q.num.tdiv q.den

/-- A directory of JSON files as an association list keyed by file name;
`open(path, "w")` overwrites an existing file of the same name, otherwise the
file is appended. -/
def storeWrite {α : Type} : List (String × α) → String → α → List (String × α)
  | [], key, v => [(key, v)]
  | p :: ps, key, v =>
    if p.1 = key then (key, v) :: ps else p :: storeWrite ps key v

/-- File lookup in a directory store. -/
def storeLookup {α : Type} : List (String × α) → String → Option α
  | [], _ => none
  | p :: ps, key => if p.1 = key then some p.2 else storeLookup ps key

/-- The payment file name used by `transfer_sol` (lines 345 and 373):
`payment_` followed by `int(time.time())`, the wall-clock time in whole
seconds. -/
def payment_file (t : Nat) : String :=
  "blockchain_data/payments/payment_" ++ toString t ++ ".json"

/-- The transfer record JSON written into `blockchain_data/payments` by
`transfer_sol`. Keys absent from the failed-path dictionary (signature,
blockhash) are modelled as `none`; `confirmed_on_blockchain` is absent there
too and modelled as `false`. -/
structure TransferRecord where
  transaction_id : String
  signature : Option String
  from_wallet : String
  to_wallet : String
  from_address : Pubkey
  to_address : Pubkey
  amount : ℚ
  lamports : Int
  timestamp : String
  status : TxStatus
  ttype : String
  blockchain_ready : Bool
  confirmed_on_blockchain : Bool
  blockhash : Option String
  error : Option String
deriving DecidableEq

/-- The payments directory. -/
abbrev PaymentStore := List (String × TransferRecord)

/-- The client responses a single `transfer_sol` run can consume. An `.error`
response stands for the client call raising an exception; this applies to the
status polls (`polls i` at the i-th `get_signature_statuses` call) and to the
final history-searching check (`final_resp`) just as to the other calls. -/
structure TransferEnv where
  balance_resp : Except String Nat
  blockhash_resp : Except String String
  send_resp : Except String String
  polls : Nat → Except String (Option SigStatus)
  final_resp : Except String (Option SigStatus)

/-- Outcome of a `transfer_sol` run: the value returned or error raised, the
payments directory afterwards, and the trace of client calls made. -/
structure TransferOutcome where
  result : Except PyErr TransferRecord
  store : PaymentStore
  calls : List NetCall

/-- The solders system-program transfer instruction built by
`transfer(TransferParams(...))`: bincode discriminant 2 then lamports as u64
little-endian; sender is a writable signer, receiver writable. -/
def transfer_instruction (from_pubkey to_pubkey : Pubkey) (lamports : Nat) :
    Instruction :=
  { program_id := SYSTEM_PROGRAM_ID
    accounts := [⟨from_pubkey, true, true⟩, ⟨to_pubkey, false, true⟩]
    data := u32le 2 ++ u64le lamports }

/-- The failed-transaction record written by the `except` handler of
`transfer_sol` (lines 355-378) before the exception is re-raised. -/
def failed_transfer_record (from_wallet_name to_wallet_name : String)
    (from_address to_address : Pubkey) (amount : ℚ) (lamports : Int)
    (now : String) (t : Nat) (e : String) : TransferRecord :=
  { transaction_id := "tx_failed_" ++ toString t
    signature := none
    from_wallet := from_wallet_name
    to_wallet := to_wallet_name
    from_address := from_address
    to_address := to_address
    amount := amount
    lamports := lamports
    timestamp := now
    status := TxStatus.failed
    ttype := "sol_transfer"
    blockchain_ready := false
    confirmed_on_blockchain := false
    blockhash := none
    error := some e }

/-- `transfer_sol` (lines 219-378). Inputs beyond the call arguments:
`from_keypair_pubkey` is the public key derived from the source wallet's
secret key by `get_wallet_keypair` (external cryptography), `env` holds the
client responses, `t` is `int(time.time())` at record-write time, `now` is
`datetime.now().isoformat()`, and `store` is the payments directory. The
steps in source order: existence checks on both wallet names, keypair
resolution, one balance query (via `get_wallet_balance`, which swallows client
errors into 0.0), the pre-flight `balance < amount` rejection, lamports
conversion, then inside `try`: blockhash fetch, transfer-instruction and
message construction, signing, submission, the bounded confirmation loop, the
one extra history-searching check when still pending, and the record write;
any exception inside `try` — including one raised by a status poll or by the
history-searching check — writes a failed record and re-raises. -/
def transfer_sol (wallets : Wallets) (from_wallet_name to_wallet_name : String)
    (amount : ℚ) (from_keypair_pubkey : Pubkey) (env : TransferEnv)
    (t : Nat) (now : String) (store : PaymentStore) : TransferOutcome :=
  match walletLookup wallets from_wallet_name, walletLookup wallets to_wallet_name with
  | none, _ =>
    { result := .error (.walletNotFound from_wallet_name), store := store, calls := [] }
  | some _, none =>
    { result := .error (.walletNotFound to_wallet_name), store := store, calls := [] }
  | some _, some to_info =>
    match get_wallet_balance wallets from_wallet_name env.balance_resp with
    | .error e => { result := .error e, store := store, calls := [NetCall.getBalance] }
    | .ok balance =>
      if balance < amount then
        { result := .error (.insufficientBalance balance amount)
          store := store
          calls := [NetCall.getBalance] }
      else
        let lamports : Int := int_trunc (amount * 1000000000)
        let to_address := to_info.public_key
        match env.blockhash_resp with
        | .error e =>
          { result := .error (.clientError e)
            store := storeWrite store (payment_file t)
              (failed_transfer_record from_wallet_name to_wallet_name
                from_keypair_pubkey to_address amount lamports now t e)
            calls := [NetCall.getBalance, NetCall.getLatestBlockhash] }
        | .ok recent_blockhash =>
          let _txn : SignedTransaction :=
            { instructions := [transfer_instruction from_keypair_pubkey to_address
                lamports.toNat]
              fee_payer := from_keypair_pubkey
              recent_blockhash := recent_blockhash
              signers := [from_keypair_pubkey] }
          match env.send_resp with
          | .error e =>
            { result := .error (.clientError e)
              store := storeWrite store (payment_file t)
                (failed_transfer_record from_wallet_name to_wallet_name
                  from_keypair_pubkey to_address amount lamports now t e)
              calls := [NetCall.getBalance, NetCall.getLatestBlockhash,
                        NetCall.sendTransaction] }
          | .ok transaction_signature =>
            let polled := poll_loop env.polls
            let n_polls := polled.2
            let submit_calls :=
              [NetCall.getBalance, NetCall.getLatestBlockhash,
               NetCall.sendTransaction]
              ++ List.replicate n_polls (NetCall.getSignatureStatuses false)
            let finish : TxStatus → List NetCall → TransferOutcome :=
              fun status extra_checks =>
                let record : TransferRecord :=
                  { transaction_id := transaction_signature
                    signature := some transaction_signature
                    from_wallet := from_wallet_name
                    to_wallet := to_wallet_name
                    from_address := from_keypair_pubkey
                    to_address := to_address
                    amount := amount
                    lamports := lamports
                    timestamp := now
                    status := status
                    ttype := "sol_transfer"
                    blockchain_ready := true
                    confirmed_on_blockchain := status = TxStatus.confirmed
                    blockhash := some recent_blockhash
                    error := none }
                { result := .ok record
                  store := storeWrite store (payment_file t) record
                  calls := submit_calls ++ extra_checks }
            match polled.1 with
            | .error e =>
              { result := .error (.clientError e)
                store := storeWrite store (payment_file t)
                  (failed_transfer_record from_wallet_name to_wallet_name
                    from_keypair_pubkey to_address amount lamports now t e)
                calls := submit_calls }
            | .ok loop_status =>
              if loop_status = TxStatus.pending then
                match final_history_check env.final_resp loop_status with
                | .error e =>
                  { result := .error (.clientError e)
                    store := storeWrite store (payment_file t)
                      (failed_transfer_record from_wallet_name to_wallet_name
                        from_keypair_pubkey to_address amount lamports now t e)
                    calls := submit_calls ++ [NetCall.getSignatureStatuses true] }
                | .ok status =>
                  finish status [NetCall.getSignatureStatuses true]
              else finish loop_status []

/-- The NFT record JSON written by `mint_product_nft` (lines 876-889) into
`blockchain_data/nfts/<product_id>_nft.json`. Metadata is an association list
of its JSON keys. -/
structure NftRecord where
  product_id : String
  mint_address : Pubkey
  token_account : Pubkey
  owner_wallet : String
  owner_address : Pubkey
  metadata : List (String × String)
  created_at : String
  transaction_signature : String
  status : TxStatus
  blockchain_ready : Bool
  on_chain : Bool
  token_standard : String
deriving DecidableEq

/-- The `blockchain_data/nfts` directory, keyed by product id (the file name
is the product id followed by `_nft.json`, so the key is the product id). -/
abbrev NftStore := List (String × NftRecord)

/-- The client responses a single `mint_product_nft` run can consume. As in
`TransferEnv`, an `.error` stands for the client call raising; `polls i` may
raise too, the exception escaping the confirmation loop into the `except`
handler. -/
structure MintEnv where
  blockhash_resp : Except String String
  mint_rent_resp : Except String Nat
  token_rent_resp : Except String Nat
  send_resp : Except String String
  polls : Nat → Except String (Option SigStatus)

/-- Outcome of a `mint_product_nft` run: the value returned or error raised,
the NFT directory afterwards, the transaction that was signed and submitted
(when construction got that far), and the trace of client calls made. -/
structure MintOutcome where
  result : Except PyErr NftRecord
  store : NftStore
  submitted : Option SignedTransaction
  calls : List NetCall

/-- `mint_product_nft` (lines 707-905). Inputs beyond the call arguments:
`owner_pubkey` is derived from the owner wallet's secret key by
`get_wallet_keypair`, `mint_pubkey` and `token_account_pubkey` are the public
keys of the two freshly generated keypairs (external randomness), `env` holds
the client responses and `now` is `datetime.now().isoformat()`. Source order:
owner-wallet existence check, keypair generation, then inside `try`: blockhash
fetch, rent queries for 82 and 165 bytes, assembly and signing of the
five-instruction transaction, submission, and the bounded confirmation loop.
A status other than confirmed raises (there is no history-searching recheck
here), and a status poll raising escapes the loop the same way; the `except`
handler only logs and re-raises, so no record is written on any failure. Only
the confirmed path writes the NFT record, overwriting any existing file of
that product id. -/
def mint_product_nft (wallets : Wallets) (nft_store : NftStore)
    (product_id owner_wallet_name : String) (metadata : List (String × String))
    (owner_pubkey mint_pubkey token_account_pubkey : Pubkey) (env : MintEnv)
    (now : String) : MintOutcome :=
  if ¬ walletContains wallets owner_wallet_name then
    { result := .error (.walletNotFound owner_wallet_name)
      store := nft_store, submitted := none, calls := [] }
  else
    match env.blockhash_resp with
    | .error e =>
      { result := .error (.clientError e), store := nft_store, submitted := none
        calls := [NetCall.getLatestBlockhash] }
    | .ok recent_blockhash =>
      match env.mint_rent_resp with
      | .error e =>
        { result := .error (.clientError e), store := nft_store, submitted := none
          calls := [NetCall.getLatestBlockhash,
                    NetCall.getMinimumBalanceForRentExemption 82] }
      | .ok mint_rent =>
        match env.token_rent_resp with
        | .error e =>
          { result := .error (.clientError e), store := nft_store, submitted := none
            calls := [NetCall.getLatestBlockhash,
                      NetCall.getMinimumBalanceForRentExemption 82,
                      NetCall.getMinimumBalanceForRentExemption 165] }
        | .ok token_account_rent =>
          let txn := build_mint_transaction owner_pubkey mint_pubkey
            token_account_pubkey mint_rent token_account_rent recent_blockhash
          let calls0 := [NetCall.getLatestBlockhash,
                         NetCall.getMinimumBalanceForRentExemption 82,
                         NetCall.getMinimumBalanceForRentExemption 165,
                         NetCall.sendTransaction]
          match env.send_resp with
          | .error e =>
            { result := .error (.clientError e), store := nft_store
              submitted := some txn, calls := calls0 }
          | .ok transaction_signature =>
            let polled := poll_loop env.polls
            let n_polls := polled.2
            let calls1 := calls0
              ++ List.replicate n_polls (NetCall.getSignatureStatuses false)
            match polled.1 with
            | .error e =>
              { result := .error (.clientError e), store := nft_store
                submitted := some txn, calls := calls1 }
            | .ok status =>
            if status ≠ TxStatus.confirmed then
              { result := .error .mintNotConfirmed, store := nft_store
                submitted := some txn, calls := calls1 }
            else
              let nft_info : NftRecord :=
                { product_id := product_id
                  mint_address := mint_pubkey
                  token_account := token_account_pubkey
                  owner_wallet := owner_wallet_name
                  owner_address := owner_pubkey
                  metadata := metadata
                  created_at := now
                  transaction_signature := transaction_signature
                  status := status
                  blockchain_ready := true
                  on_chain := true
                  token_standard := "SPL Token NFT" }
              { result := .ok nft_info
                store := storeWrite nft_store product_id nft_info
                submitted := some txn
                calls := calls1 }

/-- A parsed payment JSON as read by `get_transaction_history`: the keys its
filters access through `dict.get`, each optional since `get` returns None for
a missing key. -/
structure PaymentData where
  from_wallet : Option String
  to_wallet : Option String
  ttype : Option String
deriving DecidableEq

/-- Insertion step of a stable descending sort on the numeric file-name key. -/
def insertDesc {α : Type} (x : Nat × α) : List (Nat × α) → List (Nat × α)
  | [] => [x]
  | y :: ys => if y.1 < x.1 then x :: y :: ys else y :: insertDesc x ys

/-- `sorted(files, reverse=True)` on the payment file names. The names are
`payment_<int(time.time())>.json` with the seconds written at a fixed decimal
width, so the reverse lexicographic order of the names is the descending
numeric order of the keys. -/
def sortDesc {α : Type} (l : List (Nat × α)) : List (Nat × α) :=
  l.foldr insertDesc []

/-- The two filters of `get_transaction_history` (lines 470-477); the guards
`if wallet_name:` and `if transaction_type:` use Python truthiness, so a None
or empty filter keeps everything. -/
def history_filters (wallet_name transaction_type : Option String)
    (d : PaymentData) : Bool :=
  (if truthyStr wallet_name then
    decide (d.from_wallet = wallet_name) || decide (d.to_wallet = wallet_name)
   else true) &&
  (if truthyStr transaction_type then decide (d.ttype = transaction_type)
   else true)

/-- The records `get_transaction_history` selects, still paired with their
numeric file-name keys: the directory listing restricted to `.json` files is
reverse-sorted, truncated to `limit`, and each file is parsed (an unreadable
file, modelled by `none`, is logged and skipped) and passed through the
filters. -/
def selected_history (files : List (Nat × Option PaymentData))
    (wallet_name : Option String) (limit : Nat)
    (transaction_type : Option String) : List (Nat × PaymentData) :=
  ((sortDesc files).take limit).filterMap (fun p =>
    match p.2 with
    | none => none
    | some d =>
      if history_filters wallet_name transaction_type d then some (p.1, d)
      else none)

/-- `get_transaction_history` (lines 440-485): the parsed records of
`selected_history`, in selection order. -/
def get_transaction_history (files : List (Nat × Option PaymentData))
    (wallet_name : Option String) (limit : Nat)
    (transaction_type : Option String) : List PaymentData :=
  (selected_history files wallet_name limit transaction_type).map Prod.snd

instance {ε α : Type} [DecidableEq ε] [DecidableEq α] :
    DecidableEq (Except ε α) := fun x y =>
  match x, y with
  | .ok a, .ok b =>
    if h : a = b then isTrue (congrArg Except.ok h)
    else isFalse (fun hc => h (Except.ok.inj hc))
  | .error a, .error b =>
    if h : a = b then isTrue (congrArg Except.error h)
    else isFalse (fun hc => h (Except.error.inj hc))
  | .ok _, .error _ => isFalse (fun hc => Except.noConfusion hc)
  | .error _, .ok _ => isFalse (fun hc => Except.noConfusion hc)

/-- A poll outcome on which the confirmation loop stops: a raising call, a
returned status with an actual error, or one with no error together with a
truthy confirmation status. -/
def decisive : Except String (Option SigStatus) → Bool
  | .error _ => true
  | .ok none => false
  | .ok (some st) =>
    if st.err = none then truthyStr st.confirmation_status else true

/-- Test fixture: a public key of 32 equal bytes. -/
def pkBytes (b : Nat) : Pubkey := List.replicate 32 b

/-- Test fixture: a wallet entry. -/
def mkWallet (n : String) (b : Nat) : WalletInfo :=
  { name := n, public_key := pkBytes b, private_key := "b58", secret_key := "hex" }

/-- Test fixture: a three-wallet collection. -/
def wtest : Wallets :=
  [("w1", mkWallet "w1" 1), ("w2", mkWallet "w2" 2), ("w3", mkWallet "w3" 3)]

/-- Test fixture: a client environment in which everything succeeds and the
first poll reports a finalized, error-free status. -/
def envOk : TransferEnv :=
  { balance_resp := .ok 5000000000
    blockhash_resp := .ok "BH"
    send_resp := .ok "SIG"
    polls := fun _ =>
      .ok (some { err := none, confirmation_status := some "finalized" })
    final_resp := .ok none }

/-- Test fixture: mint environment in which everything succeeds. -/
def envMintOk : MintEnv :=
  { blockhash_resp := .ok "BH"
    mint_rent_resp := .ok 1461600
    token_rent_resp := .ok 2039280
    send_resp := .ok "SIG"
    polls := fun _ =>
      .ok (some { err := none, confirmation_status := some "finalized" }) }

/-- Test fixture: mint environment in which the transaction is accepted but no
poll ever returns a definitive status. -/
def envMintTimeout : MintEnv :=
  { envMintOk with polls := fun _ => .ok none }

/-- The record `transfer_sol` builds after a successful submission, as a
function of the final status it settles on. -/
def submitted_transfer_record (fromw tow : String) (fpk to_addr : Pubkey)
    (amount : ℚ) (now sig bh : String) (status : TxStatus) : TransferRecord :=
  { transaction_id := sig
    signature := some sig
    from_wallet := fromw
    to_wallet := tow
    from_address := fpk
    to_address := to_addr
    amount := amount
    lamports := int_trunc (amount * 1000000000)
    timestamp := now
    status := status
    ttype := "sol_transfer"
    blockchain_ready := true
    confirmed_on_blockchain := status = TxStatus.confirmed
    blockhash := some bh
    error := none }

/-- The record `mint_product_nft` builds on the confirmed path. -/
def minted_nft_record (pid own : String) (md : List (String × String))
    (opk mpk tpk : Pubkey) (sig now : String) : NftRecord :=
  { product_id := pid
    mint_address := mpk
    token_account := tpk
    owner_wallet := own
    owner_address := opk
    metadata := md
    created_at := now
    transaction_signature := sig
    status := TxStatus.confirmed
    blockchain_ready := true
    on_chain := true
    token_standard := "SPL Token NFT" }

/-- Test fixture: environment in which no poll ever returns a status and the
final history-searching check does not either. -/
def envTimeout : TransferEnv := { envOk with polls := fun _ => .ok none }

/-- Test fixture: environment in which the transaction is accepted but the
first status poll raises. -/
def envPollFail : TransferEnv := { envOk with polls := fun _ => .error "poll down" }

/-- Test fixture: environment whose balance query reports 0 lamports. -/
def envPoor : TransferEnv := { envOk with balance_resp := .ok 0 }

/-- Test fixture: environment whose balance query raises. -/
def envNetFail : TransferEnv := { envOk with balance_resp := .error "down" }

/-- Test fixture: environment whose submission raises. -/
def envSendFail : TransferEnv := { envOk with send_resp := .error "boom" }

/-- Test fixture: mint environment whose submission raises. -/
def envMintSendFail : MintEnv := { envMintOk with send_resp := .error "boom" }

/-- Concrete run: transfer of 1 SOL from a wallet whose known balance is 0. -/
def c3_out : TransferOutcome :=
  transfer_sol wtest "w1" "w2" 1 (pkBytes 1) envPoor 100 "T" []

/-- Concrete run: a mint whose polls never report a definitive status. -/
def c5_mint : MintOutcome :=
  mint_product_nft wtest [] "P1" "w1" [] (pkBytes 1) (pkBytes 11) (pkBytes 12)
    envMintTimeout "T"

/-- Concrete run: a mint whose submission raises. -/
def c9_mint : MintOutcome :=
  mint_product_nft wtest [] "P9" "w1" [] (pkBytes 1) (pkBytes 11) (pkBytes 12)
    envMintSendFail "T"

/-- Concrete fixture: a pre-existing NFT record for product "P1". -/
def c2_r0 : NftRecord :=
  { product_id := "P1"
    mint_address := pkBytes 9
    token_account := pkBytes 10
    owner_wallet := "w1"
    owner_address := pkBytes 1
    metadata := []
    created_at := "T0"
    transaction_signature := "OLDSIG"
    status := TxStatus.confirmed
    blockchain_ready := true
    on_chain := true
    token_standard := "SPL Token NFT" }

/-- Concrete run: minting product "P1" while a record for "P1" already
exists. -/
def c2_out : MintOutcome :=
  mint_product_nft wtest [("P1", c2_r0)] "P1" "w1" [] (pkBytes 1) (pkBytes 11)
    (pkBytes 12) envMintOk "T2"

/-- Concrete run: a first successful 1-SOL transfer recorded at second 100. -/
def c6_first : TransferOutcome :=
  transfer_sol wtest "w1" "w2" 1 (pkBytes 1) envOk 100 "T1" []

/-- Concrete run: a second successful transfer, to a different wallet, recorded
in the same wall-clock second 100, on top of the first one's directory. -/
def c6_second : TransferOutcome :=
  transfer_sol wtest "w1" "w3" 1 (pkBytes 1) envOk 100 "T2" c6_first.store

theorem storeLookup_storeWrite {α : Type} (s : List (String × α)) (k : String)
    (v : α) : storeLookup (storeWrite s k v) k = some v := by
  induction s with
  | nil => simp [storeWrite, storeLookup]
  | cons p ps ih =>
    by_cases h : p.1 = k
    · simp [storeWrite, storeLookup, h]
    · simp [storeWrite, storeLookup, h, ih]

theorem poll_loop_aux_pending (polls : Nat → Except String (Option SigStatus)) :
    ∀ (fuel i : Nat), (∀ j, j < fuel → decisive (polls (i + j)) = false) →
      poll_loop_aux polls i fuel = (.ok TxStatus.pending, i + fuel) := by
  intro fuel
  induction fuel with
  | zero => intro i _; simp [poll_loop_aux]
  | succ n ih =>
    intro i h
    have h0 : decisive (polls i) = false := by
      have := h 0 (Nat.succ_pos n)
      simpa using this
    have hrest : ∀ j, j < n → decisive (polls (i + 1 + j)) = false := by
      intro j hj
      have := h (j + 1) (by omega)
      have harr : i + (j + 1) = i + 1 + j := by omega
      rwa [harr] at this
    have htail := ih (i + 1) hrest
    have harr : i + 1 + n = i + (n + 1) := by omega
    cases hp : polls i with
    | error e =>
      rw [hp] at h0; simp [decisive] at h0
    | ok o =>
      cases o with
      | none =>
        rw [poll_loop_aux.eq_def]
        dsimp only
        rw [hp]
        dsimp only
        rw [htail, harr]
      | some st =>
        have he : st.err = none := by
          by_cases he : st.err = none
          · exact he
          · rw [hp] at h0; simp [decisive, he] at h0
        have hc : truthyStr st.confirmation_status = false := by
          rw [hp] at h0; simpa [decisive, he] using h0
        rw [poll_loop_aux.eq_def]
        dsimp only
        rw [hp]
        dsimp only
        simp [he, hc, htail, harr]

theorem poll_loop_aux_stops (polls : Nat → Except String (Option SigStatus)) :
    ∀ (k fuel i : Nat) (st : SigStatus), k < fuel →
      (∀ j, j < k → decisive (polls (i + j)) = false) →
      polls (i + k) = .ok (some st) → decisive (.ok (some st)) = true →
      poll_loop_aux polls i fuel =
        (.ok (if st.err = none then TxStatus.confirmed else TxStatus.failed),
         i + k + 1) := by
  intro k
  induction k with
  | zero =>
    intro fuel i st hk _ hat hdec
    obtain ⟨fuel', rfl⟩ : ∃ f, fuel = f + 1 := ⟨fuel - 1, by omega⟩
    rw [Nat.add_zero] at hat
    rw [poll_loop_aux.eq_def]
    dsimp only
    rw [hat]
    dsimp only
    by_cases he : st.err = none
    · have hc : truthyStr st.confirmation_status = true := by
        simpa [decisive, he] using hdec
      simp [he, hc]
    · simp [he]
  | succ n ih =>
    intro fuel i st hk hbefore hat hdec
    obtain ⟨fuel', rfl⟩ : ∃ f, fuel = f + 1 := ⟨fuel - 1, by omega⟩
    have h0 : decisive (polls i) = false := by
      have := hbefore 0 (Nat.succ_pos n)
      simpa using this
    have hrest : ∀ j, j < n → decisive (polls (i + 1 + j)) = false := by
      intro j hj
      have := hbefore (j + 1) (by omega)
      have harr : i + (j + 1) = i + 1 + j := by omega
      rwa [harr] at this
    have hat' : polls (i + 1 + n) = .ok (some st) := by
      have harr : i + (n + 1) = i + 1 + n := by omega
      rwa [harr] at hat
    have htail := ih fuel' (i + 1) st (by omega) hrest hat' hdec
    have harr : i + 1 + n + 1 = i + (n + 1) + 1 := by omega
    cases hp : polls i with
    | error e =>
      rw [hp] at h0; simp [decisive] at h0
    | ok o =>
      cases o with
      | none =>
        rw [poll_loop_aux.eq_def]
        dsimp only
        rw [hp]
        dsimp only
        rw [htail, harr]
      | some st0 =>
        have he : st0.err = none := by
          by_cases he : st0.err = none
          · exact he
          · rw [hp] at h0; simp [decisive, he] at h0
        have hc : truthyStr st0.confirmation_status = false := by
          rw [hp] at h0; simpa [decisive, he] using h0
        rw [poll_loop_aux.eq_def]
        dsimp only
        rw [hp]
        dsimp only
        simp [he, hc, htail, harr]

theorem mem_insertDesc {α : Type} (x y : Nat × α) (l : List (Nat × α)) :
    y ∈ insertDesc x l ↔ y = x ∨ y ∈ l := by
  induction l with
  | nil => simp [insertDesc]
  | cons z zs ih =>
    by_cases h : z.1 < x.1
    · simp [insertDesc, h]
    · simp [insertDesc, h, ih]
      tauto

theorem pairwise_insertDesc {α : Type} (x : Nat × α) (l : List (Nat × α))
    (h : l.Pairwise (fun a b => b.1 ≤ a.1)) :
    (insertDesc x l).Pairwise (fun a b => b.1 ≤ a.1) := by
  induction l with
  | nil => simp [insertDesc]
  | cons z zs ih =>
    rcases List.pairwise_cons.mp h with ⟨hz, hzs⟩
    by_cases hlt : z.1 < x.1
    · rw [insertDesc, if_pos hlt]
      refine List.pairwise_cons.mpr ⟨?_, h⟩
      intro w hw
      rcases List.mem_cons.mp hw with rfl | hw'
      · omega
      · have := hz w hw'
        omega
    · rw [insertDesc, if_neg hlt]
      refine List.pairwise_cons.mpr ⟨?_, ih hzs⟩
      intro w hw
      rcases (mem_insertDesc x w zs).mp hw with rfl | hw'
      · omega
      · exact hz w hw'

theorem pairwise_sortDesc {α : Type} (l : List (Nat × α)) :
    (sortDesc l).Pairwise (fun a b => b.1 ≤ a.1) := by
  induction l with
  | nil => simp [sortDesc]
  | cons x xs ih => exact pairwise_insertDesc x (sortDesc xs) ih

theorem mint_no_history_search (wallets : Wallets) (nft_store : NftStore)
    (pid own : String) (md : List (String × String)) (opk mpk tpk : Pubkey)
    (env : MintEnv) (now : String) :
    NetCall.getSignatureStatuses true ∉
      (mint_product_nft wallets nft_store pid own md opk mpk tpk env now).calls := by
  unfold mint_product_nft
  by_cases hw : walletContains wallets own
  · rw [if_neg (by simp [hw])]
    cases hbh : env.blockhash_resp with
    | error e => simp
    | ok bh =>
      cases hmr : env.mint_rent_resp with
      | error e => simp
      | ok mr =>
        cases htr : env.token_rent_resp with
        | error e => simp
        | ok tr =>
          cases hs : env.send_resp with
          | error e => simp
          | ok sig =>
            rcases hpl : poll_loop env.polls with ⟨stat?, npolls⟩
            simp only [hpl]
            cases stat? with
            | error e =>
              simp [List.mem_append, List.mem_replicate]
            | ok status =>
              dsimp only
              by_cases hst : status ≠ TxStatus.confirmed
              · rw [if_pos hst]
                simp [List.mem_append, List.mem_replicate]
              · rw [if_neg hst]
                simp [List.mem_append, List.mem_replicate]
  · rw [if_pos (by simp [hw])]
    simp

/-- C1: in the mint-issuance transaction built by `mint_product_nft`, the
hand-encoded payloads are byte-exact — InitializeMint is discriminant byte 0,
decimals byte 0, the 32 mint-authority bytes of the issuing wallet, then
option byte 0 for no freeze authority; InitializeAccount is discriminant byte
1 then the 32 owner bytes; MintTo is discriminant byte 7 then the amount 1 as
an 8-byte little-endian unsigned integer — the five instructions appear in the
order create-mint-account, initialize-mint, create-token-account,
initialize-token-account, mint-to (witnessed by the program ids and account
lists), they share the one recent blockhash of the message, and the
transaction is signed by exactly three keypairs: issuing wallet, mint, and
token account. -/
theorem C1_mint_transaction_byte_exact (owner mint tok : Pubkey)
    (mint_rent tok_rent : Nat) (bh : String) (howner : owner.length = 32) :
    (build_mint_transaction owner mint tok mint_rent tok_rent bh).instructions.map
        Instruction.data =
      [ u32le 0 ++ u64le mint_rent ++ u64le 82 ++ TOKEN_PROGRAM_ID
      , 0 :: 0 :: (owner ++ [0])
      , u32le 0 ++ u64le tok_rent ++ u64le 165 ++ TOKEN_PROGRAM_ID
      , 1 :: owner
      , [7, 1, 0, 0, 0, 0, 0, 0, 0] ] ∧
    (init_mint_data owner).length = 35 ∧
    (init_token_account_data owner).length = 33 ∧
    (build_mint_transaction owner mint tok mint_rent tok_rent bh).instructions.map
        Instruction.program_id =
      [SYSTEM_PROGRAM_ID, TOKEN_PROGRAM_ID, SYSTEM_PROGRAM_ID,
       TOKEN_PROGRAM_ID, TOKEN_PROGRAM_ID] ∧
    ((build_mint_transaction owner mint tok mint_rent tok_rent bh).instructions.map
        Instruction.accounts).map (List.map AccountMeta.pubkey) =
      [[owner, mint], [mint, SYSVAR_RENT_ID, owner],
       [owner, tok], [tok, mint, owner, SYSVAR_RENT_ID], [mint, tok, owner]] ∧
    (build_mint_transaction owner mint tok mint_rent tok_rent bh).recent_blockhash
      = bh ∧
    (build_mint_transaction owner mint tok mint_rent tok_rent bh).signers
      = [owner, mint, tok] := by
  refine ⟨?_, ?_, ?_, ?_, ?_, rfl, rfl⟩
  · simp [build_mint_transaction, create_account, init_mint_ix,
      init_token_account_ix, mint_to_ix, init_mint_data, init_token_account_data,
      mint_to_data, u8, u64le]
  · simp [init_mint_data, u8, howner]
  · simp [init_token_account_data, u8, howner]
  · simp [build_mint_transaction, create_account, init_mint_ix,
      init_token_account_ix, mint_to_ix]
  · simp [build_mint_transaction, create_account, init_mint_ix,
      init_token_account_ix, mint_to_ix]

/-- C1 witness: the theorem applied at a concrete key triple and rents. -/
theorem C1_mint_transaction_byte_exact_witness :
    (pkBytes 5).length = 32 ∧
    ((build_mint_transaction (pkBytes 5) (pkBytes 6) (pkBytes 7) 1461600 2039280
          "BH").instructions.map Instruction.data =
      [ u32le 0 ++ u64le 1461600 ++ u64le 82 ++ TOKEN_PROGRAM_ID
      , 0 :: 0 :: (pkBytes 5 ++ [0])
      , u32le 0 ++ u64le 2039280 ++ u64le 165 ++ TOKEN_PROGRAM_ID
      , 1 :: pkBytes 5
      , [7, 1, 0, 0, 0, 0, 0, 0, 0] ] ∧
    (init_mint_data (pkBytes 5)).length = 35 ∧
    (init_token_account_data (pkBytes 5)).length = 33 ∧
    (build_mint_transaction (pkBytes 5) (pkBytes 6) (pkBytes 7) 1461600 2039280
        "BH").instructions.map Instruction.program_id =
      [SYSTEM_PROGRAM_ID, TOKEN_PROGRAM_ID, SYSTEM_PROGRAM_ID,
       TOKEN_PROGRAM_ID, TOKEN_PROGRAM_ID] ∧
    ((build_mint_transaction (pkBytes 5) (pkBytes 6) (pkBytes 7) 1461600 2039280
        "BH").instructions.map Instruction.accounts).map
          (List.map AccountMeta.pubkey) =
      [[pkBytes 5, pkBytes 6], [pkBytes 6, SYSVAR_RENT_ID, pkBytes 5],
       [pkBytes 5, pkBytes 7], [pkBytes 7, pkBytes 6, pkBytes 5, SYSVAR_RENT_ID],
       [pkBytes 6, pkBytes 7, pkBytes 5]] ∧
    (build_mint_transaction (pkBytes 5) (pkBytes 6) (pkBytes 7) 1461600 2039280
        "BH").recent_blockhash = "BH" ∧
    (build_mint_transaction (pkBytes 5) (pkBytes 6) (pkBytes 7) 1461600 2039280
        "BH").signers = [pkBytes 5, pkBytes 6, pkBytes 7]) :=
  ⟨by simp [pkBytes],
   C1_mint_transaction_byte_exact (pkBytes 5) (pkBytes 6) (pkBytes 7)
     1461600 2039280 "BH" (by simp [pkBytes])⟩

/-- C4: for every submitted transaction, the confirmation poll loop (shared
verbatim by `transfer_sol` and `mint_product_nft`) transitions to confirmed on
the first poll response whose error field is none and whose
confirmation-commitment level is non-empty, and to failed on the first poll
response carrying an error; in either case it stops immediately — when the
first such decisive response is the k-th (k below the 30-poll ceiling, all
earlier responses indecisive), exactly k + 1 polls are performed. -/
theorem C4_confirmation_first_decisive
    (polls : Nat → Except String (Option SigStatus))
    (k : Nat) (st : SigStatus) (hk : k < MAX_WAIT)
    (hbefore : ∀ j, j < k → decisive (polls j) = false)
    (hat : polls k = .ok (some st)) (hdec : decisive (.ok (some st)) = true) :
    poll_loop polls =
      (.ok (if st.err = none then TxStatus.confirmed else TxStatus.failed),
       k + 1) := by
  have h := poll_loop_aux_stops polls k MAX_WAIT 0 st hk
    (by intro j hj; simpa using hbefore j hj) (by simpa using hat) hdec
  simpa [poll_loop] using h

/-- C4 witness: a first poll that is already finalized and error-free yields
confirmed after exactly one poll. -/
theorem C4_confirmation_first_decisive_witness :
    0 < MAX_WAIT ∧ poll_loop envOk.polls = (.ok TxStatus.confirmed, 1) :=
  ⟨by decide, by
    have h := C4_confirmation_first_decisive envOk.polls 0
      { err := none, confirmation_status := some "finalized" }
      (by decide) (fun j hj => absurd hj (Nat.not_lt_zero j)) rfl (by decide)
    simpa using h⟩

theorem transfer_sol_decided_eq
    (wallets : Wallets) (fromw tow : String) (amount : ℚ) (fpk : Pubkey)
    (env : TransferEnv) (t : Nat) (now : String) (store : PaymentStore)
    (fi ti : WalletInfo) (bh sig : String) (s : TxStatus) (n : Nat)
    (hf : walletLookup wallets fromw = some fi)
    (ht : walletLookup wallets tow = some ti)
    (hb : ¬ balance_of_resp env.balance_resp < amount)
    (hbh : env.blockhash_resp = .ok bh)
    (hsend : env.send_resp = .ok sig)
    (hpl : poll_loop env.polls = (.ok s, n))
    (hs : ¬ s = TxStatus.pending) :
    transfer_sol wallets fromw tow amount fpk env t now store =
      { result := .ok (submitted_transfer_record fromw tow fpk ti.public_key
          amount now sig bh s)
        store := storeWrite store (payment_file t)
          (submitted_transfer_record fromw tow fpk ti.public_key amount now sig
            bh s)
        calls := [NetCall.getBalance, NetCall.getLatestBlockhash,
                  NetCall.sendTransaction]
                 ++ List.replicate n (NetCall.getSignatureStatuses false) } := by
  simp only [transfer_sol, get_wallet_balance, hf, ht, hbh, hsend, hpl]
  rw [if_neg hb, if_neg hs]
  simp [submitted_transfer_record]

theorem transfer_sol_timeout_eq
    (wallets : Wallets) (fromw tow : String) (amount : ℚ) (fpk : Pubkey)
    (env : TransferEnv) (t : Nat) (now : String) (store : PaymentStore)
    (fi ti : WalletInfo) (bh sig : String) (s2 : TxStatus) (n : Nat)
    (hf : walletLookup wallets fromw = some fi)
    (ht : walletLookup wallets tow = some ti)
    (hb : ¬ balance_of_resp env.balance_resp < amount)
    (hbh : env.blockhash_resp = .ok bh)
    (hsend : env.send_resp = .ok sig)
    (hpl : poll_loop env.polls = (.ok TxStatus.pending, n))
    (hfc : final_history_check env.final_resp TxStatus.pending = .ok s2) :
    transfer_sol wallets fromw tow amount fpk env t now store =
      { result := .ok (submitted_transfer_record fromw tow fpk ti.public_key
          amount now sig bh s2)
        store := storeWrite store (payment_file t)
          (submitted_transfer_record fromw tow fpk ti.public_key amount now sig
            bh s2)
        calls := [NetCall.getBalance, NetCall.getLatestBlockhash,
                  NetCall.sendTransaction]
                 ++ List.replicate n (NetCall.getSignatureStatuses false)
                 ++ [NetCall.getSignatureStatuses true] } := by
  simp only [transfer_sol, get_wallet_balance, hf, ht, hbh, hsend, hpl]
  rw [if_neg hb]
  simp only [hfc]
  simp [submitted_transfer_record]

/-- C5 (amended): when no definitive status is observed within the 30 one-unit
polls, a SOL transfer performs exactly one additional status check requesting
extended transaction-history search, and if that check is still not definitive
the persisted and returned record carries the terminal status pending —
distinct from failed — standing for the spec's TimedOut; an NFT mint, by
contrast, never performs a history-searching check: it raises instead of
reporting a timeout status. -/
theorem C5_timeout_final_check
    (wallets : Wallets) (fromw tow : String) (amount : ℚ) (fpk : Pubkey)
    (env : TransferEnv) (t : Nat) (now : String) (store : PaymentStore)
    (fi ti : WalletInfo) (bh sig : String)
    (hf : walletLookup wallets fromw = some fi)
    (ht : walletLookup wallets tow = some ti)
    (hb : ¬ balance_of_resp env.balance_resp < amount)
    (hbh : env.blockhash_resp = .ok bh)
    (hsend : env.send_resp = .ok sig)
    (hpolls : ∀ j, j < MAX_WAIT → decisive (env.polls j) = false)
    (hfinal : final_history_check env.final_resp TxStatus.pending
      = .ok TxStatus.pending) :
    (transfer_sol wallets fromw tow amount fpk env t now store).calls =
      [NetCall.getBalance, NetCall.getLatestBlockhash, NetCall.sendTransaction]
        ++ List.replicate MAX_WAIT (NetCall.getSignatureStatuses false)
        ++ [NetCall.getSignatureStatuses true] ∧
    (transfer_sol wallets fromw tow amount fpk env t now store).result =
      .ok (submitted_transfer_record fromw tow fpk ti.public_key amount now sig bh
        TxStatus.pending) ∧
    storeLookup (transfer_sol wallets fromw tow amount fpk env t now store).store
        (payment_file t) =
      some (submitted_transfer_record fromw tow fpk ti.public_key amount now sig bh
        TxStatus.pending) ∧
    TxStatus.pending ≠ TxStatus.failed ∧
    (∀ (wallets' : Wallets) (nft_store : NftStore) (pid own : String)
       (md : List (String × String)) (opk mpk tpk : Pubkey) (menv : MintEnv)
       (now' : String),
       NetCall.getSignatureStatuses true ∉
         (mint_product_nft wallets' nft_store pid own md opk mpk tpk menv
           now').calls) := by
  have hpl : poll_loop env.polls = (.ok TxStatus.pending, MAX_WAIT) := by
    have h := poll_loop_aux_pending env.polls MAX_WAIT 0
      (by intro j hj; simpa using hpolls j hj)
    simpa [poll_loop] using h
  have heq := transfer_sol_timeout_eq wallets fromw tow amount fpk env t now
    store fi ti bh sig TxStatus.pending MAX_WAIT hf ht hb hbh hsend hpl hfinal
  refine ⟨by rw [heq], by rw [heq], ?_, by simp, ?_⟩
  · rw [heq]
    exact storeLookup_storeWrite _ _ _
  · intro wallets' nft_store pid own md opk mpk tpk menv now'
    exact mint_no_history_search wallets' nft_store pid own md opk mpk tpk menv now'

/-- C5 witness: the theorem at a concrete indefinite environment. -/
theorem C5_timeout_final_check_witness :
    (walletLookup wtest "w1" = some (mkWallet "w1" 1) ∧
     walletLookup wtest "w2" = some (mkWallet "w2" 2) ∧
     ¬ balance_of_resp envTimeout.balance_resp < 1 ∧
     envTimeout.blockhash_resp = .ok "BH" ∧
     envTimeout.send_resp = .ok "SIG" ∧
     (∀ j, j < MAX_WAIT → decisive (envTimeout.polls j) = false) ∧
     final_history_check envTimeout.final_resp TxStatus.pending
       = .ok TxStatus.pending) ∧
    ((transfer_sol wtest "w1" "w2" 1 (pkBytes 1) envTimeout 100 "T" []).calls =
      [NetCall.getBalance, NetCall.getLatestBlockhash, NetCall.sendTransaction]
        ++ List.replicate MAX_WAIT (NetCall.getSignatureStatuses false)
        ++ [NetCall.getSignatureStatuses true] ∧
    (transfer_sol wtest "w1" "w2" 1 (pkBytes 1) envTimeout 100 "T" []).result =
      .ok (submitted_transfer_record "w1" "w2" (pkBytes 1)
        (mkWallet "w2" 2).public_key 1 "T" "SIG" "BH" TxStatus.pending) ∧
    storeLookup (transfer_sol wtest "w1" "w2" 1 (pkBytes 1) envTimeout 100 "T"
        []).store (payment_file 100) =
      some (submitted_transfer_record "w1" "w2" (pkBytes 1)
        (mkWallet "w2" 2).public_key 1 "T" "SIG" "BH" TxStatus.pending) ∧
    TxStatus.pending ≠ TxStatus.failed ∧
    (∀ (wallets' : Wallets) (nft_store : NftStore) (pid own : String)
       (md : List (String × String)) (opk mpk tpk : Pubkey) (menv : MintEnv)
       (now' : String),
       NetCall.getSignatureStatuses true ∉
         (mint_product_nft wallets' nft_store pid own md opk mpk tpk menv
           now').calls)) := by
  have hb : ¬ balance_of_resp envTimeout.balance_resp < 1 := by
    norm_num [envTimeout, envOk, balance_of_resp]
  exact ⟨⟨rfl, rfl, hb, rfl, rfl, fun j _ => rfl, rfl⟩,
    C5_timeout_final_check wtest "w1" "w2" 1 (pkBytes 1) envTimeout 100 "T" []
      (mkWallet "w1" 1) (mkWallet "w2" 2) "BH" "SIG" rfl rfl hb rfl rfl
      (fun j _ => rfl) rfl⟩

/-- C5 counterexample: an NFT mint whose polls never become definitive performs
zero history-searching status checks (and raises), refuting the claim that
every submitted transaction reaching the ceiling gets exactly one extended
check and a TimedOut report. -/
theorem C5_counterexample :
    c5_mint.calls.countP
      (fun c => decide (c = NetCall.getSignatureStatuses true)) = 0 ∧
    c5_mint.calls ≠ [] ∧
    c5_mint.result = .error PyErr.mintNotConfirmed := by decide

theorem mint_store_unchanged_on_failure (wallets : Wallets)
    (nft_store : NftStore) (pid own : String) (md : List (String × String))
    (opk mpk tpk : Pubkey) (env : MintEnv) (now : String) :
    (mint_product_nft wallets nft_store pid own md opk mpk tpk env
      now).result.isOk = false →
    (mint_product_nft wallets nft_store pid own md opk mpk tpk env now).store
      = nft_store := by
  unfold mint_product_nft
  by_cases hw : walletContains wallets own
  · rw [if_neg (by simp [hw])]
    cases hbh : env.blockhash_resp with
    | error e => intro _; rfl
    | ok bh =>
      cases hmr : env.mint_rent_resp with
      | error e => intro _; rfl
      | ok mr =>
        cases htr : env.token_rent_resp with
        | error e => intro _; rfl
        | ok tr =>
          cases hs : env.send_resp with
          | error e => intro _; rfl
          | ok sig =>
            rcases hpl : poll_loop env.polls with ⟨stat?, npolls⟩
            simp only [hpl]
            cases stat? with
            | error e => intro _; rfl
            | ok status =>
              dsimp only
              by_cases hst : status ≠ TxStatus.confirmed
              · rw [if_pos hst]; intro _; rfl
              · rw [if_neg hst]; intro hfail; exact Bool.noConfusion hfail
  · rw [if_pos (by simp [hw])]; intro _; rfl

/-- C3 (amended): a transfer whose requested amount exceeds the sender's
last-known balance fails with the insufficient-balance error before any
transaction-related network call: the one and only network call made is the
balance refresh itself — no blockhash fetch, no submission, and no record
write occur. -/
theorem C3_insufficient_preflight
    (wallets : Wallets) (fromw tow : String) (amount : ℚ) (fpk : Pubkey)
    (env : TransferEnv) (t : Nat) (now : String) (store : PaymentStore)
    (fi ti : WalletInfo)
    (hf : walletLookup wallets fromw = some fi)
    (ht : walletLookup wallets tow = some ti)
    (hb : balance_of_resp env.balance_resp < amount) :
    transfer_sol wallets fromw tow amount fpk env t now store =
      { result := .error (.insufficientBalance
          (balance_of_resp env.balance_resp) amount)
        store := store
        calls := [NetCall.getBalance] } ∧
    NetCall.sendTransaction ∉
      (transfer_sol wallets fromw tow amount fpk env t now store).calls ∧
    NetCall.getLatestBlockhash ∉
      (transfer_sol wallets fromw tow amount fpk env t now store).calls := by
  have heq : transfer_sol wallets fromw tow amount fpk env t now store =
      { result := .error (.insufficientBalance
          (balance_of_resp env.balance_resp) amount)
        store := store
        calls := [NetCall.getBalance] } := by
    simp only [transfer_sol, get_wallet_balance, hf, ht]
    rw [if_pos hb]
  refine ⟨heq, ?_, ?_⟩ <;> rw [heq] <;> simp

/-- C3 witness: the theorem at a wallet whose known balance is zero. -/
theorem C3_insufficient_preflight_witness :
    (walletLookup wtest "w1" = some (mkWallet "w1" 1) ∧
     walletLookup wtest "w2" = some (mkWallet "w2" 2) ∧
     balance_of_resp envPoor.balance_resp < 1) ∧
    (transfer_sol wtest "w1" "w2" 1 (pkBytes 1) envPoor 100 "T" [] =
      { result := .error (.insufficientBalance
          (balance_of_resp envPoor.balance_resp) 1)
        store := []
        calls := [NetCall.getBalance] } ∧
     NetCall.sendTransaction ∉
       (transfer_sol wtest "w1" "w2" 1 (pkBytes 1) envPoor 100 "T" []).calls ∧
     NetCall.getLatestBlockhash ∉
       (transfer_sol wtest "w1" "w2" 1 (pkBytes 1) envPoor 100 "T" []).calls) := by
  have hb : balance_of_resp envPoor.balance_resp < 1 := by
    norm_num [envPoor, envOk, balance_of_resp]
  exact ⟨⟨rfl, rfl, hb⟩,
    C3_insufficient_preflight wtest "w1" "w2" 1 (pkBytes 1) envPoor 100 "T" []
      (mkWallet "w1" 1) (mkWallet "w2" 2) rfl rfl hb⟩

/-- C3 counterexample: the insufficient-funds rejection does make one network
call — the balance query — so the trace is not empty, refuting the
zero-network-calls part of the claim. -/
theorem C3_counterexample :
    c3_out.result = .error (.insufficientBalance 0 1) ∧
    c3_out.calls = [NetCall.getBalance] ∧
    c3_out.calls ≠ [] := by
  have h0 : balance_of_resp envPoor.balance_resp = 0 := by
    norm_num [envPoor, envOk, balance_of_resp]
  have hb : balance_of_resp envPoor.balance_resp < 1 := by rw [h0]; norm_num
  have hw1 : walletLookup wtest "w1" = some (mkWallet "w1" 1) := rfl
  have hw2 : walletLookup wtest "w2" = some (mkWallet "w2" 2) := rfl
  have heq : c3_out =
      { result := .error (.insufficientBalance
          (balance_of_resp envPoor.balance_resp) 1)
        store := []
        calls := [NetCall.getBalance] } := by
    simp only [c3_out, transfer_sol, get_wallet_balance, hw1, hw2]
    rw [if_pos hb]
  rw [heq, h0]
  simp

/-- C9 (amended): for a SOL transfer whose submission or confirmation raises
after construction — whether the `send_transaction` call, one of the
`get_signature_statuses` polls inside the confirmation loop, or the final
history-searching check is what raises — a record carrying status failed and
the error description is persisted to the payments directory before the
exception is surfaced; for an NFT mint, by contrast, nothing is persisted on
any failing path — a failed mint leaves no audit record. -/
theorem C9_failure_persisted
    (wallets : Wallets) (fromw tow : String) (amount : ℚ) (fpk : Pubkey)
    (env : TransferEnv) (t : Nat) (now : String) (store : PaymentStore)
    (fi ti : WalletInfo) (bh e sig : String) (npolls : Nat)
    (hf : walletLookup wallets fromw = some fi)
    (ht : walletLookup wallets tow = some ti)
    (hb : ¬ balance_of_resp env.balance_resp < amount)
    (hbh : env.blockhash_resp = .ok bh)
    (hfail : env.send_resp = .error e ∨
      (env.send_resp = .ok sig ∧ poll_loop env.polls = (.error e, npolls)) ∨
      (env.send_resp = .ok sig ∧
        poll_loop env.polls = (.ok TxStatus.pending, npolls) ∧
        final_history_check env.final_resp TxStatus.pending = .error e)) :
    (transfer_sol wallets fromw tow amount fpk env t now store).result =
      .error (.clientError e) ∧
    storeLookup (transfer_sol wallets fromw tow amount fpk env t now store).store
        (payment_file t) =
      some (failed_transfer_record fromw tow fpk ti.public_key amount
        (int_trunc (amount * 1000000000)) now t e) ∧
    (failed_transfer_record fromw tow fpk ti.public_key amount
      (int_trunc (amount * 1000000000)) now t e).status = TxStatus.failed ∧
    (failed_transfer_record fromw tow fpk ti.public_key amount
      (int_trunc (amount * 1000000000)) now t e).error = some e ∧
    (∀ (wallets' : Wallets) (nft_store : NftStore) (pid own : String)
       (md : List (String × String)) (opk mpk tpk : Pubkey) (menv : MintEnv)
       (now' : String),
       (mint_product_nft wallets' nft_store pid own md opk mpk tpk menv
         now').result.isOk = false →
       (mint_product_nft wallets' nft_store pid own md opk mpk tpk menv
         now').store = nft_store) := by
  have hkey : (transfer_sol wallets fromw tow amount fpk env t now store).result
        = .error (.clientError e) ∧
      (transfer_sol wallets fromw tow amount fpk env t now store).store
        = storeWrite store (payment_file t)
            (failed_transfer_record fromw tow fpk ti.public_key amount
              (int_trunc (amount * 1000000000)) now t e) := by
    rcases hfail with hsend | ⟨hsend, hpl⟩ | ⟨hsend, hpl, hfc⟩
    · have heq : transfer_sol wallets fromw tow amount fpk env t now store =
          { result := .error (.clientError e)
            store := storeWrite store (payment_file t)
              (failed_transfer_record fromw tow fpk ti.public_key amount
                (int_trunc (amount * 1000000000)) now t e)
            calls := [NetCall.getBalance, NetCall.getLatestBlockhash,
                      NetCall.sendTransaction] } := by
        simp only [transfer_sol, get_wallet_balance, hf, ht, hbh, hsend]
        rw [if_neg hb]
      rw [heq]
      exact ⟨rfl, rfl⟩
    · have heq : transfer_sol wallets fromw tow amount fpk env t now store =
          { result := .error (.clientError e)
            store := storeWrite store (payment_file t)
              (failed_transfer_record fromw tow fpk ti.public_key amount
                (int_trunc (amount * 1000000000)) now t e)
            calls := [NetCall.getBalance, NetCall.getLatestBlockhash,
                      NetCall.sendTransaction]
                     ++ List.replicate npolls
                          (NetCall.getSignatureStatuses false) } := by
        simp only [transfer_sol, get_wallet_balance, hf, ht, hbh, hsend, hpl]
        rw [if_neg hb]
      rw [heq]
      exact ⟨rfl, rfl⟩
    · have heq : transfer_sol wallets fromw tow amount fpk env t now store =
          { result := .error (.clientError e)
            store := storeWrite store (payment_file t)
              (failed_transfer_record fromw tow fpk ti.public_key amount
                (int_trunc (amount * 1000000000)) now t e)
            calls := [NetCall.getBalance, NetCall.getLatestBlockhash,
                      NetCall.sendTransaction]
                     ++ List.replicate npolls
                          (NetCall.getSignatureStatuses false)
                     ++ [NetCall.getSignatureStatuses true] } := by
        simp only [transfer_sol, get_wallet_balance, hf, ht, hbh, hsend, hpl]
        rw [if_neg hb]
        simp only [hfc]
        simp
      rw [heq]
      exact ⟨rfl, rfl⟩
  refine ⟨hkey.1, ?_, rfl, rfl, ?_⟩
  · rw [hkey.2]
    exact storeLookup_storeWrite _ _ _
  · intro wallets' nft_store pid own md opk mpk tpk menv now'
    exact mint_store_unchanged_on_failure wallets' nft_store pid own md opk mpk
      tpk menv now'

/-- C9 witness: the theorem applied at a concrete run whose submission
succeeds and whose first confirmation poll raises. -/
theorem C9_failure_persisted_witness :
    (walletLookup wtest "w1" = some (mkWallet "w1" 1) ∧
     walletLookup wtest "w2" = some (mkWallet "w2" 2) ∧
     ¬ balance_of_resp envPollFail.balance_resp < 1 ∧
     envPollFail.blockhash_resp = .ok "BH" ∧
     (envPollFail.send_resp = .ok "SIG" ∧
       poll_loop envPollFail.polls = (.error "poll down", 1))) ∧
    ((transfer_sol wtest "w1" "w2" 1 (pkBytes 1) envPollFail 100 "T" []).result =
      .error (.clientError "poll down") ∧
     storeLookup (transfer_sol wtest "w1" "w2" 1 (pkBytes 1) envPollFail 100 "T"
         []).store (payment_file 100) =
       some (failed_transfer_record "w1" "w2" (pkBytes 1)
         (mkWallet "w2" 2).public_key 1 (int_trunc (1 * 1000000000)) "T" 100
         "poll down") ∧
     (failed_transfer_record "w1" "w2" (pkBytes 1) (mkWallet "w2" 2).public_key 1
       (int_trunc (1 * 1000000000)) "T" 100 "poll down").status
       = TxStatus.failed ∧
     (failed_transfer_record "w1" "w2" (pkBytes 1) (mkWallet "w2" 2).public_key 1
       (int_trunc (1 * 1000000000)) "T" 100 "poll down").error
       = some "poll down" ∧
     (∀ (wallets' : Wallets) (nft_store : NftStore) (pid own : String)
        (md : List (String × String)) (opk mpk tpk : Pubkey) (menv : MintEnv)
        (now' : String),
        (mint_product_nft wallets' nft_store pid own md opk mpk tpk menv
          now').result.isOk = false →
        (mint_product_nft wallets' nft_store pid own md opk mpk tpk menv
          now').store = nft_store)) := by
  have hb : ¬ balance_of_resp envPollFail.balance_resp < 1 := by
    norm_num [envPollFail, envOk, balance_of_resp]
  have hpl : poll_loop envPollFail.polls = (.error "poll down", 1) := by decide
  exact ⟨⟨rfl, rfl, hb, rfl, rfl, hpl⟩,
    C9_failure_persisted wtest "w1" "w2" 1 (pkBytes 1) envPollFail 100 "T" []
      (mkWallet "w1" 1) (mkWallet "w2" 2) "BH" "poll down" "SIG" 1 rfl rfl hb
      rfl (Or.inr (Or.inl ⟨rfl, hpl⟩))⟩

/-- C9 counterexample: an NFT mint whose submission raises surfaces the error
yet persists nothing — its record directory is untouched — refuting the claim
that every failed transfer-or-mint attempt leaves an audit record. -/
theorem C9_counterexample :
    c9_mint.result = .error (.clientError "boom") ∧
    c9_mint.store = [] ∧
    NetCall.sendTransaction ∈ c9_mint.calls := by decide

/-- C10: when the network balance query raises, `get_wallet_balance` swallows
the error and returns 0.0 instead of propagating a network error; hence a
transfer of any positive amount attempted while the balance query is failing
is rejected by the pre-flight check as insufficient funds (available 0),
not reported as a network failure. -/
theorem C10_balance_error_becomes_zero
    (wallets : Wallets) (fromw tow : String) (amount : ℚ) (fpk : Pubkey)
    (env : TransferEnv) (t : Nat) (now : String) (store : PaymentStore)
    (fi ti : WalletInfo) (msg : String)
    (hf : walletLookup wallets fromw = some fi)
    (ht : walletLookup wallets tow = some ti)
    (henv : env.balance_resp = .error msg)
    (hamt : 0 < amount) :
    get_wallet_balance wallets fromw env.balance_resp = .ok 0 ∧
    (transfer_sol wallets fromw tow amount fpk env t now store).result =
      .error (.insufficientBalance 0 amount) ∧
    (transfer_sol wallets fromw tow amount fpk env t now store).calls =
      [NetCall.getBalance] ∧
    (transfer_sol wallets fromw tow amount fpk env t now store).store = store := by
  have hzero : balance_of_resp env.balance_resp = 0 := by
    rw [henv]; rfl
  have hb : balance_of_resp env.balance_resp < amount := by
    rw [hzero]; exact hamt
  have heq : transfer_sol wallets fromw tow amount fpk env t now store =
      { result := .error (.insufficientBalance
          (balance_of_resp env.balance_resp) amount)
        store := store
        calls := [NetCall.getBalance] } := by
    simp only [transfer_sol, get_wallet_balance, hf, ht]
    rw [if_pos hb]
  refine ⟨?_, ?_, by rw [heq], by rw [heq]⟩
  · simp only [get_wallet_balance, hf, hzero]
  · rw [heq, hzero]

/-- C10 witness: the theorem at a concrete failing balance query. -/
theorem C10_balance_error_becomes_zero_witness :
    (walletLookup wtest "w1" = some (mkWallet "w1" 1) ∧
     walletLookup wtest "w2" = some (mkWallet "w2" 2) ∧
     envNetFail.balance_resp = .error "down" ∧ (0 : ℚ) < 1) ∧
    (get_wallet_balance wtest "w1" envNetFail.balance_resp = .ok 0 ∧
     (transfer_sol wtest "w1" "w2" 1 (pkBytes 1) envNetFail 100 "T" []).result =
       .error (.insufficientBalance 0 1) ∧
     (transfer_sol wtest "w1" "w2" 1 (pkBytes 1) envNetFail 100 "T" []).calls =
       [NetCall.getBalance] ∧
     (transfer_sol wtest "w1" "w2" 1 (pkBytes 1) envNetFail 100 "T" []).store
       = []) :=
  ⟨⟨rfl, rfl, rfl, by norm_num⟩,
    C10_balance_error_becomes_zero wtest "w1" "w2" 1 (pkBytes 1) envNetFail 100
      "T" [] (mkWallet "w1" 1) (mkWallet "w2" 2) "down" rfl rfl rfl
      (by norm_num)⟩

theorem storeLookup_storeWrite_ne {α : Type} (s : List (String × α))
    (k k' : String) (v : α) (h : k' ≠ k) :
    storeLookup (storeWrite s k' v) k = storeLookup s k := by
  induction s with
  | nil => simp [storeWrite, storeLookup, h]
  | cons p ps ih =>
    by_cases hp : p.1 = k'
    · simp [storeWrite, storeLookup, hp, h]
    · simp [storeWrite, storeLookup, hp, ih]

/-- C2 (amended): `mint_product_nft` performs no duplicate-product check —
called with a product_id that already has a persisted AssetRecord it does not
fail with a duplicate-asset error but proceeds to the network, and a confirmed
mint overwrites the existing record with the freshly built one. -/
theorem C2_duplicate_overwritten
    (wallets : Wallets) (nft_store : NftStore) (pid own : String)
    (md : List (String × String)) (opk mpk tpk : Pubkey) (env : MintEnv)
    (now bh sig : String) (mr tr : Nat) (r0 : NftRecord)
    (hdup : storeLookup nft_store pid = some r0)
    (hw : walletContains wallets own = true)
    (hbh : env.blockhash_resp = .ok bh)
    (hmr : env.mint_rent_resp = .ok mr)
    (htr : env.token_rent_resp = .ok tr)
    (hsend : env.send_resp = .ok sig)
    (hconf : (poll_loop env.polls).1 = .ok TxStatus.confirmed) :
    (mint_product_nft wallets nft_store pid own md opk mpk tpk env now).result =
      .ok (minted_nft_record pid own md opk mpk tpk sig now) ∧
    storeLookup
      (mint_product_nft wallets nft_store pid own md opk mpk tpk env now).store
      pid = some (minted_nft_record pid own md opk mpk tpk sig now) := by
  rcases hpl : poll_loop env.polls with ⟨stat?, npolls⟩
  have hst : stat? = .ok TxStatus.confirmed := by rw [hpl] at hconf; exact hconf
  subst hst
  have heq : mint_product_nft wallets nft_store pid own md opk mpk tpk env now =
      { result := .ok (minted_nft_record pid own md opk mpk tpk sig now)
        store := storeWrite nft_store pid
          (minted_nft_record pid own md opk mpk tpk sig now)
        submitted := some (build_mint_transaction opk mpk tpk mr tr bh)
        calls := [NetCall.getLatestBlockhash,
                  NetCall.getMinimumBalanceForRentExemption 82,
                  NetCall.getMinimumBalanceForRentExemption 165,
                  NetCall.sendTransaction]
                 ++ List.replicate npolls (NetCall.getSignatureStatuses false) }
      := by
    unfold mint_product_nft
    rw [if_neg (by simp [hw]), hbh, hmr, htr, hsend]
    simp only [hpl]
    rw [if_neg (by simp)]
    simp [minted_nft_record]
  refine ⟨by rw [heq], ?_⟩
  rw [heq]
  exact storeLookup_storeWrite _ _ _

/-- C2 witness: the theorem at a concrete duplicate product id. -/
theorem C2_duplicate_overwritten_witness :
    (storeLookup [("P1", c2_r0)] "P1" = some c2_r0 ∧
     walletContains wtest "w1" = true ∧
     envMintOk.blockhash_resp = .ok "BH" ∧
     envMintOk.mint_rent_resp = .ok 1461600 ∧
     envMintOk.token_rent_resp = .ok 2039280 ∧
     envMintOk.send_resp = .ok "SIG" ∧
     (poll_loop envMintOk.polls).1 = .ok TxStatus.confirmed) ∧
    ((mint_product_nft wtest [("P1", c2_r0)] "P1" "w1" [] (pkBytes 1)
        (pkBytes 11) (pkBytes 12) envMintOk "T2").result =
      .ok (minted_nft_record "P1" "w1" [] (pkBytes 1) (pkBytes 11) (pkBytes 12)
        "SIG" "T2") ∧
     storeLookup (mint_product_nft wtest [("P1", c2_r0)] "P1" "w1" [] (pkBytes 1)
        (pkBytes 11) (pkBytes 12) envMintOk "T2").store "P1" =
      some (minted_nft_record "P1" "w1" [] (pkBytes 1) (pkBytes 11) (pkBytes 12)
        "SIG" "T2")) :=
  ⟨⟨by decide, by decide, rfl, rfl, rfl, rfl, by decide⟩,
    C2_duplicate_overwritten wtest [("P1", c2_r0)] "P1" "w1" [] (pkBytes 1)
      (pkBytes 11) (pkBytes 12) envMintOk "T2" "BH" "SIG" 1461600 2039280 c2_r0
      (by decide) (by decide) rfl rfl rfl rfl (by decide)⟩

/-- C2 counterexample: minting a product id that already has a record succeeds
(no DuplicateAsset failure), reaches the network, and replaces the existing
record on disk — refuting both halves of the claim. -/
theorem C2_counterexample :
    c2_out.result.isOk = true ∧
    (storeLookup c2_out.store "P1").isSome = true ∧
    storeLookup c2_out.store "P1" ≠ some c2_r0 ∧
    NetCall.sendTransaction ∈ c2_out.calls := by decide

/-- C6 (amended): payment records are keyed by the wall-clock second alone —
`payment_<int(time.time())>.json` — so a record is retrievable under its key,
a second record written under the same key silently overwrites the first, and
only writes under distinct keys (distinct seconds) leave each other
retrievable. -/
theorem C6_wallclock_keys (t1 t2 : Nat) (store : PaymentStore)
    (r1 r2 : TransferRecord) (hk : payment_file t1 ≠ payment_file t2) :
    storeLookup (storeWrite store (payment_file t1) r1) (payment_file t1)
      = some r1 ∧
    storeLookup (storeWrite (storeWrite store (payment_file t1) r1)
        (payment_file t1) r2) (payment_file t1) = some r2 ∧
    storeLookup (storeWrite (storeWrite store (payment_file t1) r1)
        (payment_file t2) r2) (payment_file t1)
      = some r1 := by
  refine ⟨storeLookup_storeWrite _ _ _, storeLookup_storeWrite _ _ _, ?_⟩
  rw [storeLookup_storeWrite_ne _ _ _ _ (fun h => hk h.symm)]
  exact storeLookup_storeWrite _ _ _

/-- C6 witness: the theorem at the concrete seconds 100 and 101. -/
theorem C6_wallclock_keys_witness :
    (payment_file 100 ≠ payment_file 101) ∧
    (storeLookup (storeWrite [] (payment_file 100)
        (failed_transfer_record "w1" "w2" (pkBytes 1) (pkBytes 2) 1 1000000000
          "T" 100 "e")) (payment_file 100) =
      some (failed_transfer_record "w1" "w2" (pkBytes 1) (pkBytes 2) 1 1000000000
        "T" 100 "e") ∧
     storeLookup (storeWrite (storeWrite [] (payment_file 100)
        (failed_transfer_record "w1" "w2" (pkBytes 1) (pkBytes 2) 1 1000000000
          "T" 100 "e")) (payment_file 100)
        (failed_transfer_record "w1" "w3" (pkBytes 1) (pkBytes 3) 1 1000000000
          "T" 100 "e")) (payment_file 100) =
      some (failed_transfer_record "w1" "w3" (pkBytes 1) (pkBytes 3) 1 1000000000
        "T" 100 "e") ∧
     storeLookup (storeWrite (storeWrite [] (payment_file 100)
        (failed_transfer_record "w1" "w2" (pkBytes 1) (pkBytes 2) 1 1000000000
          "T" 100 "e")) (payment_file 101)
        (failed_transfer_record "w1" "w3" (pkBytes 1) (pkBytes 3) 1 1000000000
          "T" 100 "e")) (payment_file 100) =
      some (failed_transfer_record "w1" "w2" (pkBytes 1) (pkBytes 2) 1 1000000000
        "T" 100 "e")) :=
  ⟨by decide,
    C6_wallclock_keys 100 101 []
      (failed_transfer_record "w1" "w2" (pkBytes 1) (pkBytes 2) 1 1000000000
        "T" 100 "e")
      (failed_transfer_record "w1" "w3" (pkBytes 1) (pkBytes 3) 1 1000000000
        "T" 100 "e")
      (by decide)⟩

/-- C6 counterexample: two successful transfers recorded in the same wall-clock
second write the same storage key; after the second, the directory still holds
a single record and it differs from the one the first transfer wrote — the
first record was silently overwritten and is no longer retrievable. -/
theorem C6_counterexample :
    c6_first.store.length = 1 ∧
    c6_second.store.length = 1 ∧
    (storeLookup c6_first.store (payment_file 100)).isSome = true ∧
    (storeLookup c6_second.store (payment_file 100)).isSome = true ∧
    storeLookup c6_second.store (payment_file 100) ≠
      storeLookup c6_first.store (payment_file 100) := by
  have hb : ¬ balance_of_resp envOk.balance_resp < 1 := by
    norm_num [envOk, balance_of_resp]
  have hpl : poll_loop envOk.polls = (.ok TxStatus.confirmed, 1) := by decide
  have h1 := transfer_sol_decided_eq wtest "w1" "w2" 1 (pkBytes 1) envOk 100 "T1"
    [] (mkWallet "w1" 1) (mkWallet "w2" 2) "BH" "SIG" TxStatus.confirmed 1
    rfl rfl hb rfl rfl hpl (by simp)
  have hs1 : c6_first.store = [(payment_file 100,
      submitted_transfer_record "w1" "w2" (pkBytes 1) (mkWallet "w2" 2).public_key
        1 "T1" "SIG" "BH" TxStatus.confirmed)] := by
    show (transfer_sol wtest "w1" "w2" 1 (pkBytes 1) envOk 100 "T1" []).store = _
    rw [h1]
    simp [storeWrite]
  have h2 := transfer_sol_decided_eq wtest "w1" "w3" 1 (pkBytes 1) envOk 100 "T2"
    c6_first.store (mkWallet "w1" 1) (mkWallet "w3" 3) "BH" "SIG"
    TxStatus.confirmed 1 rfl rfl hb rfl rfl hpl (by simp)
  have hs2 : c6_second.store = [(payment_file 100,
      submitted_transfer_record "w1" "w3" (pkBytes 1) (mkWallet "w3" 3).public_key
        1 "T2" "SIG" "BH" TxStatus.confirmed)] := by
    show (transfer_sol wtest "w1" "w3" 1 (pkBytes 1) envOk 100 "T2"
      c6_first.store).store = _
    rw [h2, hs1]
    simp [storeWrite]
  refine ⟨by rw [hs1]; rfl, by rw [hs2]; rfl, by rw [hs1]; simp [storeLookup],
    by rw [hs2]; simp [storeLookup], ?_⟩
  rw [hs1, hs2]
  simp [storeLookup, submitted_transfer_record, mkWallet]

theorem selected_history_key_eq (wallet_name transaction_type : Option String)
    (p : Nat × Option PaymentData) (b : Nat × PaymentData)
    (hb : (match p.2 with
           | none => none
           | some d =>
             if history_filters wallet_name transaction_type d then some (p.1, d)
             else none) = some b) :
    b.1 = p.1 ∧ history_filters wallet_name transaction_type b.2 = true := by
  cases hq : p.2 with
  | none => rw [hq] at hb; simp at hb
  | some d =>
    rw [hq] at hb
    dsimp only at hb
    by_cases hf : history_filters wallet_name transaction_type d = true
    · rw [if_pos hf] at hb
      cases hb
      exact ⟨rfl, hf⟩
    · rw [if_neg hf] at hb
      simp at hb

/-- C7: with a (non-empty) wallet-name filter W1, every record returned by
`get_transaction_history` has from_wallet = W1 or to_wallet = W1 — never both
different; the result contains at most `limit` records; and it is ordered
most-recent-first: it is the key-order projection of `selected_history`, whose
numeric file-name keys (the recording seconds) are pairwise descending. -/
theorem C7_history_filter_limit_order
    (files : List (Nat × Option PaymentData)) (w : String) (limit : Nat)
    (ty : Option String) (hw : w.isEmpty = false) :
    (∀ d ∈ get_transaction_history files (some w) limit ty,
        d.from_wallet = some w ∨ d.to_wallet = some w) ∧
    (get_transaction_history files (some w) limit ty).length ≤ limit ∧
    get_transaction_history files (some w) limit ty =
      (selected_history files (some w) limit ty).map Prod.snd ∧
    (selected_history files (some w) limit ty).Pairwise
      (fun a b => b.1 ≤ a.1) := by
  refine ⟨?_, ?_, rfl, ?_⟩
  · intro d hd
    rcases List.mem_map.mp hd with ⟨p, hp, rfl⟩
    rcases List.mem_filterMap.mp hp with ⟨q, _, hFq⟩
    have hkey := (selected_history_key_eq (some w) ty q p hFq).2
    have h1 : (if truthyStr (some w) then
        decide (p.2.from_wallet = some w) || decide (p.2.to_wallet = some w)
      else true) = true := (Bool.and_eq_true .. |>.mp hkey).1
    rw [if_pos (by simpa [truthyStr] using hw)] at h1
    rcases Bool.or_eq_true .. |>.mp h1 with h | h
    · exact Or.inl (of_decide_eq_true h)
    · exact Or.inr (of_decide_eq_true h)
  · calc (get_transaction_history files (some w) limit ty).length
        = (selected_history files (some w) limit ty).length :=
          List.length_map _ _
      _ ≤ ((sortDesc files).take limit).length :=
          List.length_filterMap_le _ _
      _ ≤ limit := List.length_take_le _ _
  · have hsorted : ((sortDesc files).take limit).Pairwise
        (fun a b : Nat × Option PaymentData => b.1 ≤ a.1) :=
      List.Pairwise.sublist (List.take_sublist _ _) (pairwise_sortDesc files)
    unfold selected_history
    refine List.pairwise_filterMap.mpr (hsorted.imp ?_)
    intro a b hab x hx y hy
    have hxa := (selected_history_key_eq (some w) ty a x hx).1
    have hyb := (selected_history_key_eq (some w) ty b y hy).1
    rw [hxa, hyb]
    exact hab

/-- C7 witness: the theorem at a concrete three-file directory. -/
theorem C7_history_filter_limit_order_witness :
    ("W1".isEmpty = false) ∧
    ((∀ d ∈ get_transaction_history
         [(3, some { from_wallet := some "W1", to_wallet := some "x",
                     ttype := some "t" }),
          (5, none),
          (4, some { from_wallet := some "a", to_wallet := some "b",
                     ttype := none })] (some "W1") 2 none,
        d.from_wallet = some "W1" ∨ d.to_wallet = some "W1") ∧
     (get_transaction_history
         [(3, some { from_wallet := some "W1", to_wallet := some "x",
                     ttype := some "t" }),
          (5, none),
          (4, some { from_wallet := some "a", to_wallet := some "b",
                     ttype := none })] (some "W1") 2 none).length ≤ 2 ∧
     get_transaction_history
         [(3, some { from_wallet := some "W1", to_wallet := some "x",
                     ttype := some "t" }),
          (5, none),
          (4, some { from_wallet := some "a", to_wallet := some "b",
                     ttype := none })] (some "W1") 2 none =
       (selected_history
         [(3, some { from_wallet := some "W1", to_wallet := some "x",
                     ttype := some "t" }),
          (5, none),
          (4, some { from_wallet := some "a", to_wallet := some "b",
                     ttype := none })] (some "W1") 2 none).map Prod.snd ∧
     (selected_history
         [(3, some { from_wallet := some "W1", to_wallet := some "x",
                     ttype := some "t" }),
          (5, none),
          (4, some { from_wallet := some "a", to_wallet := some "b",
                     ttype := none })] (some "W1") 2 none).Pairwise
       (fun a b => b.1 ≤ a.1)) :=
  ⟨rfl,
    C7_history_filter_limit_order
      [(3, some { from_wallet := some "W1", to_wallet := some "x",
                  ttype := some "t" }),
       (5, none),
       (4, some { from_wallet := some "a", to_wallet := some "b",
                  ttype := none })] "W1" 2 none rfl⟩

theorem walletLookup_append_fresh (wallets : Wallets) (name : String)
    (wi : WalletInfo) (hfresh : walletContains wallets name = false) :
    walletLookup (wallets ++ [(name, wi)]) name = some wi := by
  induction wallets with
  | nil => simp [walletLookup, List.find?]
  | cons p ps ih =>
    have h1 : (decide (p.1 = name)) = false ∧ walletContains ps name = false := by
      simpa [walletContains] using hfresh
    have := ih h1.2
    simp only [walletLookup, List.cons_append, List.find?] at this ⊢
    rw [h1.1]
    exact this

/-- C8: creating a wallet under the same name twice yields success exactly
once — the first call returns the new entry together with the persisted
collection extended by it; the second call on that collection fails with the
duplicate-name error and persists nothing — and after both calls the
collection contains exactly one entry under that name, the one from the first
creation. -/
theorem C8_duplicate_wallet_name (wallets : Wallets) (name : String)
    (k1 k2 : WalletInfo) (hfresh : walletContains wallets name = false) :
    create_wallet wallets name k1 =
      .ok ({ k1 with name := name },
           wallets ++ [(name, { k1 with name := name })]) ∧
    create_wallet (wallets ++ [(name, { k1 with name := name })]) name k2 =
      .error (.walletExists name) ∧
    walletLookup (wallets ++ [(name, { k1 with name := name })]) name =
      some { k1 with name := name } ∧
    (wallets ++ [(name, { k1 with name := name })]).countP
      (fun p : String × WalletInfo => decide (p.1 = name)) = 1 := by
  have hcontains : walletContains
      (wallets ++ [(name, { k1 with name := name })]) name = true := by
    simp [walletContains, List.any_append]
  refine ⟨?_, ?_, ?_, ?_⟩
  · simp [create_wallet, hfresh]
  · simp [create_wallet, hcontains]
  · exact walletLookup_append_fresh wallets name _ hfresh
  · rw [List.countP_append]
    have h0 : wallets.countP (fun p : String × WalletInfo => decide (p.1 = name)) = 0 := by
      refine List.countP_eq_zero.mpr ?_
      intro a ha hdec
      have : wallets.any (fun p : String × WalletInfo => decide (p.1 = name)) = true :=
        List.any_eq_true.mpr ⟨a, ha, hdec⟩
      rw [show wallets.any (fun p : String × WalletInfo => decide (p.1 = name))
            = walletContains wallets name from rfl, hfresh] at this
      exact Bool.noConfusion this
    rw [h0]
    simp

/-- C8 witness: the theorem at a concrete fresh name over the empty
collection. -/
theorem C8_duplicate_wallet_name_witness :
    (walletContains [] "w9" = false) ∧
    (create_wallet [] "w9" (mkWallet "x" 4) =
      .ok ({ mkWallet "x" 4 with name := "w9" },
           [] ++ [("w9", { mkWallet "x" 4 with name := "w9" })]) ∧
     create_wallet ([] ++ [("w9", { mkWallet "x" 4 with name := "w9" })]) "w9"
         (mkWallet "y" 5) =
       .error (.walletExists "w9") ∧
     walletLookup ([] ++ [("w9", { mkWallet "x" 4 with name := "w9" })]) "w9" =
       some { mkWallet "x" 4 with name := "w9" } ∧
     ([] ++ [("w9", { mkWallet "x" 4 with name := "w9" })]).countP
       (fun p : String × WalletInfo => decide (p.1 = "w9")) = 1) :=
  ⟨rfl, C8_duplicate_wallet_name [] "w9" (mkWallet "x" 4) (mkWallet "y" 5) rfl⟩

end SolanaIntegration
